import Mathlib

/-!
Verification development for the `arc` CLI (a Rust client for a switch
vendor's PoE REST API). The definitions below are a shallow embedding of
`src/api.rs` and `src/main.rs`: HTTP transport and the on-disk store are
modelled as explicit environments, async fan-out/join as a list of task
outcomes chosen by an oracle, and every function returns the list of
requests it issues so that traces can be reasoned about.
-/

namespace Arc

/-! ## JSON values (model of serde_json::Value) -/

inductive Json where
  | null
  | bool (b : Bool)
  | num (n : Nat)
  | str (s : String)
  | arr (xs : List Json)
  | obj (fields : List (String × Json))

/-- Field lookup in a JSON object, mirroring serde's by-name field access. -/
def Json.getField : Json → String → Option Json
  | .obj fs, k => List.lookup k fs
  | _, _ => none

def Json.asStr : Json → Option String
  | .str s => some s
  | _ => none

def Json.asBool : Json → Option Bool
  | .bool b => some b
  | _ => none

def Json.asNum : Json → Option Nat
  | .num n => some n
  | _ => none

/-- True when the value is an object all of whose values are numbers, i.e.
deserializable as serde's HashMap String u32 (ignoring the u32 bound, which
no claim touches). -/
def Json.isNumObj : Json → Bool
  | .obj fs => fs.all (fun kv => match kv.2 with | .num _ => true | _ => false)
  | _ => false

/-! ## JSON text parsing (model of serde_json::from_str::<Value>)

A fuel-indexed recursive-descent parser over the character list. It covers
the JSON fragment exercised by this program's payloads: null, booleans,
non-negative integer numbers, strings without escape sequences, arrays and
objects. Inputs outside this fragment are classified as invalid, which is
the side of the classification every claim depends on. -/

def skipWs : List Char → List Char
  | c :: cs => if c = ' ' ∨ c = '\n' ∨ c = '\t' ∨ c = '\r' then skipWs cs else c :: cs
  | [] => []

/-- Consumes the literal characters `lit` from the front of the input. -/
def expectChars : List Char → List Char → Option (List Char)
  | [], cs => some cs
  | l :: ls, c :: cs => if c = l then expectChars ls cs else none
  | _ :: _, [] => none

def takeDigits : List Char → List Char × List Char
  | [] => ([], [])
  | c :: cs =>
    if c.isDigit then
      let (ds, rest) := takeDigits cs
      (c :: ds, rest)
    else ([], c :: cs)

def digitsToNat (ds : List Char) : Nat :=
  ds.foldl (fun n c => n * 10 + (c.toNat - 48)) 0

/-- Reads the body of a string literal up to the closing quote; escape
sequences are outside the modelled fragment. -/
def takeStringChars : List Char → Option (List Char × List Char)
  | [] => none
  | c :: cs =>
    if c = '"' then some ([], cs)
    else if c = '\\' then none
    else (takeStringChars cs).map (fun p => (c :: p.1, p.2))

mutual

def parseVal : Nat → List Char → Option (Json × List Char)
  | 0, _ => none
  | fuel + 1, cs =>
    match skipWs cs with
    | [] => none
    | c :: rest =>
      if c = 'n' then (expectChars ['u', 'l', 'l'] rest).map (fun r => (Json.null, r))
      else if c = 't' then (expectChars ['r', 'u', 'e'] rest).map (fun r => (Json.bool true, r))
      else if c = 'f' then (expectChars ['a', 'l', 's', 'e'] rest).map (fun r => (Json.bool false, r))
      else if c = '"' then (takeStringChars rest).map (fun p => (Json.str ⟨p.1⟩, p.2))
      else if c.isDigit then
        let (ds, r) := takeDigits (c :: rest)
        some (Json.num (digitsToNat ds), r)
      else if c = '[' then
        match skipWs rest with
        | ']' :: r => some (Json.arr [], r)
        | cs2 => (parseArrItems fuel cs2).map (fun p => (Json.arr p.1, p.2))
      else if c = '{' then
        match skipWs rest with
        | '}' :: r => some (Json.obj [], r)
        | cs2 => (parseObjItems fuel cs2).map (fun p => (Json.obj p.1, p.2))
      else none

def parseArrItems : Nat → List Char → Option (List Json × List Char)
  | 0, _ => none
  | fuel + 1, cs =>
    match parseVal fuel cs with
    | none => none
    | some (j, r) =>
      match skipWs r with
      | ',' :: r2 => (parseArrItems fuel r2).map (fun p => (j :: p.1, p.2))
      | ']' :: r2 => some ([j], r2)
      | _ => none

def parseObjItems : Nat → List Char → Option (List (String × Json) × List Char)
  | 0, _ => none
  | fuel + 1, cs =>
    match skipWs cs with
    | '"' :: r =>
      match takeStringChars r with
      | none => none
      | some (k, r2) =>
        match skipWs r2 with
        | ':' :: r3 =>
          match parseVal fuel r3 with
          | none => none
          | some (v, r4) =>
            match skipWs r4 with
            | ',' :: r5 => (parseObjItems fuel r5).map (fun p => ((⟨k⟩, v) :: p.1, p.2))
            | '}' :: r5 => some ([(⟨k⟩, v)], r5)
            | _ => none
        | _ => none
    | _ => none

end

/-- Model of serde_json::from_str::<Value>: parse one value and require the
whole input to be consumed. -/
def parseJson (s : String) : Option Json :=
  match parseVal (s.data.length + 1) s.data with
  | some (j, r) => if (skipWs r).isEmpty then some j else none
  | none => none

/-! ## URLs (model of the external url / reqwest::Url crate)

The program only ever parses a caller-supplied base URL and then joins
relative paths ending in a concrete segment onto it. A base URL is
well-formed when it has the hierarchical shape scheme://rest with a
nonempty alphabetic scheme; parsing normalizes it to end in a slash, so
that joining a relative path is concatenation (all joins in the source are
performed on bases ending in a slash, where the url crate behaves the same
way, and such joins never fail). -/

structure Url where
  raw : String
deriving DecidableEq

/-- Splits the input at the first occurrence of the characters "://". -/
def splitSchemeAux : List Char → List Char → Option (List Char × List Char)
  | acc, ':' :: '/' :: '/' :: rest => some (acc.reverse, rest)
  | acc, c :: rest => splitSchemeAux (c :: acc) rest
  | _, [] => none

/-- Model of reqwest::Url::parse on a base URL. -/
def parseUrl (s : String) : Option Url :=
  match splitSchemeAux [] s.data with
  | some (scheme, rest) =>
    if !scheme.isEmpty && scheme.all Char.isAlpha && !rest.isEmpty then
      some ⟨if s.data.getLast? == some '/' then s else s ++ "/"⟩
    else none
  | none => none

/-- Model of reqwest::Url::join for a relative path against a base whose
path ends in a slash. -/
def Url.join (u : Url) (rel : String) : Url :=
  ⟨u.raw ++ rel⟩

/-! ## Transport (model of reqwest) -/

/-- Model of reqwest::Error as observed by this program: Error::status()
is `some s` only for errors produced by error_for_status; connection and
body-decode failures carry no status. -/
structure ReqError where
  status : Option Nat
deriving DecidableEq

/-- api.rs lines 57-75: the api::Error enum. -/
inductive Error where
  | Parse (msg : String)
  | Request (e : ReqError)

/-- A raw HTTP response delivered by the network environment. -/
structure Response where
  status : Nat
  body : Json

/-- One request issued by the program, recorded for trace reasoning. -/
inductive Request where
  | get (url : Url)
  | put (url : Url) (body : Json)
  | post (url : Url) (body : Json)

def Request.isGet : Request → Bool
  | .get _ => true
  | _ => false

def Request.isPut : Request → Bool
  | .put _ _ => true
  | _ => false

def Request.isPost : Request → Bool
  | .post _ _ => true
  | _ => false

/-- The network environment: what the server answers to each request.
`none` models a connection-level failure (no response at all). -/
structure Net where
  get : Url → Option Response
  put : Url → Json → Option Response
  post : Url → Json → Option Response

/-- Model of the send + error_for_status + json::<T> chain of a GET:
a missing response or a failed body decode is a reqwest error without a
status, a 4xx/5xx response is a reqwest error carrying that status. -/
def httpGet {α : Type} (net : Net) (u : Url) (dec : Json → Option α) :
    Except Error α × List Request :=
  match net.get u with
  | none => (.error (.Request { status := none }), [Request.get u])
  | some r =>
    if 400 ≤ r.status then (.error (.Request { status := some r.status }), [Request.get u])
    else
      match dec r.body with
      | none => (.error (.Request { status := none }), [Request.get u])
      | some a => (.ok a, [Request.get u])

/-- Model of the send + error_for_status + json::<T> chain of a PUT. -/
def httpPut {α : Type} (net : Net) (u : Url) (body : Json) (dec : Json → Option α) :
    Except Error α × List Request :=
  match net.put u body with
  | none => (.error (.Request { status := none }), [Request.put u body])
  | some r =>
    if 400 ≤ r.status then (.error (.Request { status := some r.status }), [Request.put u body])
    else
      match dec r.body with
      | none => (.error (.Request { status := none }), [Request.put u body])
      | some a => (.ok a, [Request.put u body])

/-- Model of the send + error_for_status + json::<T> chain of a POST. -/
def httpPost {α : Type} (net : Net) (u : Url) (body : Json) (dec : Json → Option α) :
    Except Error α × List Request :=
  match net.post u body with
  | none => (.error (.Request { status := none }), [Request.post u body])
  | some r =>
    if 400 ≤ r.status then (.error (.Request { status := some r.status }), [Request.post u body])
    else
      match dec r.body with
      | none => (.error (.Request { status := none }), [Request.post u body])
      | some a => (.ok a, [Request.post u body])

/-! ## api.rs: wire data types -/

/-- api.rs lines 5-10: the login request body; serde renames user_name to
userName on the wire. -/
structure LoginRequest where
  user_name : String
  password : String

def LoginRequest.toJson (r : LoginRequest) : Json :=
  .obj [("userName", .str r.user_name), ("password", .str r.password)]

/-- api.rs lines 12-15: LoginResponse, decoded from the login reply. -/
def decodeLoginResponse (j : Json) : Option String :=
  (j.getField "cookie").bind Json.asStr

/-- api.rs lines 17-27: the PoE port descriptor. The u32 field is a Nat;
no arithmetic is performed on it. -/
structure PortPoe where
  uri : String
  port_id : String
  is_poe_enabled : Bool
  poe_priority : String
  poe_allocation_method : String
  allocated_power_in_watts : Nat
  port_configured_type : String
  pre_standard_detect_enabled : Bool
deriving DecidableEq

/-- Serde serialization of PortPoe (derive without rename attributes keeps
the Rust field names as JSON keys). -/
def PortPoe.toJson (p : PortPoe) : Json :=
  .obj [("uri", .str p.uri),
        ("port_id", .str p.port_id),
        ("is_poe_enabled", .bool p.is_poe_enabled),
        ("poe_priority", .str p.poe_priority),
        ("poe_allocation_method", .str p.poe_allocation_method),
        ("allocated_power_in_watts", .num p.allocated_power_in_watts),
        ("port_configured_type", .str p.port_configured_type),
        ("pre_standard_detect_enabled", .bool p.pre_standard_detect_enabled)]

/-- Serde deserialization of PortPoe: every field must be present with the
right type; extra fields are ignored. -/
def PortPoe.fromJson? (j : Json) : Option PortPoe := do
  let uri ← Json.asStr (← j.getField "uri")
  let port_id ← Json.asStr (← j.getField "port_id")
  let is_poe_enabled ← Json.asBool (← j.getField "is_poe_enabled")
  let poe_priority ← Json.asStr (← j.getField "poe_priority")
  let poe_allocation_method ← Json.asStr (← j.getField "poe_allocation_method")
  let allocated_power_in_watts ← Json.asNum (← j.getField "allocated_power_in_watts")
  let port_configured_type ← Json.asStr (← j.getField "port_configured_type")
  let pre_standard_detect_enabled ← Json.asBool (← j.getField "pre_standard_detect_enabled")
  pure { uri, port_id, is_poe_enabled, poe_priority, poe_allocation_method,
         allocated_power_in_watts, port_configured_type, pre_standard_detect_enabled }

/-- api.rs lines 29-32: the write-payload type holding only the writable
field. Note that nothing in the program constructs or serializes it: it is
dead code on the write path (see Session.set_port). -/
structure PortPoeWrite where
  is_poe_enabled : Bool

/-- api.rs lines 34-40: From PortPoe for PortPoeWrite. -/
def PortPoeWrite.fromPortPoe (port_poe : PortPoe) : PortPoeWrite :=
  { is_poe_enabled := port_poe.is_poe_enabled }

def PortPoeWrite.toJson (w : PortPoeWrite) : Json :=
  .obj [("is_poe_enabled", .bool w.is_poe_enabled)]

/-- api.rs lines 50-55: WiredElementList, decoded from the list-ports
reply; collection_result must deserialize as a string-to-number map and
port_poe as an array of descriptors. The decoded value of interest is the
port_poe vector. -/
def decodeWiredElementList (j : Json) : Option (List PortPoe) :=
  match j.getField "collection_result" with
  | some cr =>
    if cr.isNumObj then
      match j.getField "port_poe" with
      | some (.arr xs) => xs.mapM PortPoe.fromJson?
      | _ => none
    else none
  | none => none

/-! ## api.rs: Session -/

/-- api.rs lines 77-81: a Session is the bound pair of rest base URL and
authenticated client; the client's cookie jar is modelled by the cookie
string it was built from. -/
structure Session where
  url : Url
  cookie : String

/-- api.rs lines 101-117: Session::from_cookie. Parses the base URL, joins
rest/v1/, parses the base URL again for the cookie jar, and builds the
client; no request is issued (the function does not take a Net). -/
def Session.from_cookie (url : String) (session_cookie : String) : Except Error Session :=
  match parseUrl url with
  | none => .error (.Parse "relative URL without a base")
  | some u =>
    let rest_base_url := u.join "rest/v1/"
    match parseUrl url with
    | none => .error (.Parse "relative URL without a base")
    | some _ => .ok { url := rest_base_url, cookie := session_cookie }

/-- api.rs lines 84-99: Session::new. Parses the base URL, posts the
credentials to login-sessions, decodes the LoginResponse cookie and
restores a session from it. -/
def Session.new (url : String) (credentials : LoginRequest) (net : Net) :
    Except Error (Session × String) × List Request :=
  match parseUrl url with
  | none => (.error (.Parse "relative URL without a base"), [])
  | some u =>
    let loginUrl := (u.join "rest/v1/").join "login-sessions"
    let r := httpPost net loginUrl credentials.toJson decodeLoginResponse
    match r.1 with
    | .error e => (.error e, r.2)
    | .ok cookie =>
      match Session.from_cookie url cookie with
      | .error e => (.error e, r.2)
      | .ok s => (.ok (s, cookie), r.2)

/-- api.rs lines 119-130: Session::get_ports. -/
def Session.get_ports (s : Session) (net : Net) :
    Except Error (List PortPoe) × List Request :=
  httpGet net (s.url.join "poe/ports") decodeWiredElementList

/-- api.rs lines 132-145: Session::get_port. -/
def Session.get_port (s : Session) (port_id : String) (net : Net) :
    Except Error PortPoe × List Request :=
  httpGet net (s.url.join ("ports/" ++ port_id ++ "/poe")) PortPoe.fromJson?

/-- api.rs lines 147-162: Session::set_port. The caller-supplied patch
`data` is transmitted verbatim as the request body. -/
def Session.set_port (s : Session) (port : PortPoe) (data : Json) (net : Net) :
    Except Error PortPoe × List Request :=
  httpPut net (s.url.join ("ports/" ++ port.port_id ++ "/poe")) data PortPoe.fromJson?

/-! ## main.rs: command handlers -/

/-- Errors surfaced at the command boundary (anyhow in the source): a
propagated api::Error, a serde_json parse failure of the patch payload, or
an ad hoc message from bail!/anyhow!. -/
inductive CliError where
  | api (e : Error)
  | jsonParse
  | other (msg : String)

/-- main.rs lines 29-34: the login command arguments. -/
structure LoginArgs where
  base_url : String
  user_name : String
  password : String

/-- Serde serialization of LoginArgs (derive, no renames). -/
def LoginArgs.toJson (a : LoginArgs) : Json :=
  .obj [("base_url", .str a.base_url),
        ("user_name", .str a.user_name),
        ("password", .str a.password)]

/-- main.rs lines 64-68: the record written to the data directory. -/
structure PersistentData where
  login_args : LoginArgs
  cookie : String

def PersistentData.toJson (d : PersistentData) : Json :=
  .obj [("login_args", d.login_args.toJson), ("cookie", .str d.cookie)]

/-- main.rs lines 71-85: PersistentData::save_to_disk serializes the full
record (login arguments and cookie) with serde_json; the result here is
the JSON value written to persist.txt. -/
def PersistentData.save_to_disk (login_args : LoginArgs) (cookie : String) : Json :=
  (PersistentData.mk login_args cookie).toJson

/-- main.rs lines 54-62: LoginArgs::handle. Creates a session and saves
self.clone() together with the returned cookie; the saved record is
returned here so the persisted state is observable. -/
def LoginArgs.handle (args : LoginArgs) (net : Net) :
    Except Error (Session × PersistentData) × List Request :=
  let created := Session.new args.base_url
    { user_name := args.user_name, password := args.password } net
  match created.1 with
  | .error e => (.error e, created.2)
  | .ok (session, cookie) =>
    (.ok (session, { login_args := args, cookie := cookie }), created.2)

/-- main.rs lines 103-106: the get command arguments. -/
structure GetArgs where
  port_ids : List String

/-- main.rs lines 108-131: GetArgs::handle. The sentinel check, the
single-id lookup via get_port, and the fetch-all-and-filter path; the ok
payload is the list of ports printed, one JSON line each. -/
def GetArgs.handle (args : GetArgs) (session : Session) (net : Net) :
    Except Error (List PortPoe) × List Request :=
  let all := args.port_ids.length == 1 && args.port_ids.headD "" == "all"
  if all then session.get_ports net
  else if args.port_ids.length == 1 then
    let r := session.get_port (args.port_ids.headD "") net
    (r.1.map (fun port => [port]), r.2)
  else
    let r := session.get_ports net
    (r.1.map (fun ports => ports.filter (fun port => args.port_ids.contains port.port_id)), r.2)

/-- main.rs lines 133-138: the set command arguments (clap requires
port_ids to be nonempty, but that is enforced by the CLI layer). -/
structure SetArgs where
  port_ids : List String
  data : String

/-- main.rs lines 142-153: target selection inside SetArgs::handle; unlike
get there is no single-id lookup path. -/
def SetArgs.selectPorts (args : SetArgs) (session : Session) (net : Net) :
    Except Error (List PortPoe) × List Request :=
  let all := args.port_ids.length == 1 && args.port_ids.headD "" == "all"
  let r := session.get_ports net
  if all then r
  else (r.1.map (fun ports => ports.filter (fun port => args.port_ids.contains port.port_id)), r.2)

/-- The joined outcome of one spawned write task: Err is a tokio
JoinError (the task terminated abnormally), Ok carries the task's own
api result. -/
abbrev TaskOutcome := Except String (Except Error PortPoe)

/-- main.rs lines 155-162: the spawn loop. For each selected port the
patch string is parsed (inside the loop, so a parse failure aborts before
the first spawn) and one task is spawned; joinOk says for each task index
whether joining it later returns a value or a JoinError. Requests of
already-spawned tasks stay in the trace even if a later iteration fails. -/
def spawnLoop (session : Session) (net : Net) (data : String) (joinOk : Nat → Bool) :
    Nat → List PortPoe → Except CliError (List TaskOutcome) × List Request
  | _, [] => (.ok [], [])
  | idx, port :: rest =>
    match parseJson data with
    | none => (.error .jsonParse, [])
    | some json_data =>
      let r := session.set_port port json_data net
      let t : TaskOutcome :=
        if joinOk idx then .ok r.1 else .error "task terminated abnormally"
      let restRes := spawnLoop session net data joinOk (idx + 1) rest
      match restRes.1 with
      | .error e => (.error e, r.2 ++ restRes.2)
      | .ok ts => (.ok (t :: ts), r.2 ++ restRes.2)

/-- Rust's collect::<Result<Vec<T>, E>>: the first error short-circuits,
otherwise all ok values are collected in order. -/
def collectResult {ε α : Type} : List (Except ε α) → Except ε (List α)
  | [] => .ok []
  | .error e :: _ => .error e
  | .ok a :: rest => (collectResult rest).map (fun l => a :: l)

/-- What iterating one join result inside the flat_map yields: a Result
iterates its Ok value and nothing for Err. -/
def joinYield : TaskOutcome → Option (Except Error PortPoe)
  | .ok r => some r
  | .error _ => none

/-- main.rs lines 164-174: joining and aggregation. flat_map is applied to
each join result after map_err; iterating a Result yields its Ok value and
nothing for Err, so a task whose join failed contributes no element at all
and the "failed to join task" error value built by map_err is discarded.
The surviving per-task api results are then collected. -/
def collectSetResults (tasks : List TaskOutcome) : Except Error (List PortPoe) :=
  collectResult (tasks.filterMap joinYield)

/-- main.rs lines 140-182: SetArgs::handle. Select targets, spawn one
write task per target, join and aggregate; the ok payload is the list of
ports printed, one JSON line each. -/
def SetArgs.handle (args : SetArgs) (session : Session) (net : Net) (joinOk : Nat → Bool) :
    Except CliError (List PortPoe) × List Request :=
  let sel := SetArgs.selectPorts args session net
  match sel.1 with
  | .error e => (.error (.api e), sel.2)
  | .ok ports =>
    let sp := spawnLoop session net args.data joinOk 0 ports
    match sp.1 with
    | .error e => (.error e, sel.2 ++ sp.2)
    | .ok tasks =>
      match collectSetResults tasks with
      | .error e => (.error (.api e), sel.2 ++ sp.2)
      | .ok results => (.ok results, sel.2 ++ sp.2)

/-! ## main.rs: session validation in main -/

/-- The observable outcome of the session-validation step: the session
handed to the port command (or the fatal error), the requests issued, and
the record saved to disk if a save happened. -/
structure ValidateResult where
  outcome : Except CliError Session
  reqs : List Request
  saved : Option PersistentData

/-- main.rs lines 198-218: probe get_port "1"; on a reqwest error carrying
status 400, authenticate again from the persisted login arguments, save the
new cookie and use the new session; on a reqwest error with any other (or
no) status, bail; on anything else keep the original session. -/
def validateSession (session : Session) (persisted : PersistentData) (net : Net) :
    ValidateResult :=
  let probe := session.get_port "1" net
  match probe.1 with
  | .error (.Request e) =>
    match e.status with
    | some 400 =>
      let login_request : LoginRequest :=
        { user_name := persisted.login_args.user_name,
          password := persisted.login_args.password }
      let created := Session.new persisted.login_args.base_url login_request net
      match created.1 with
      | .error _ =>
        { outcome := .error (.other "could not create session"),
          reqs := probe.2 ++ created.2, saved := none }
      | .ok (new_session, cookie) =>
        { outcome := .ok new_session, reqs := probe.2 ++ created.2,
          saved := some { login_args := persisted.login_args, cookie := cookie } }
    | some _ =>
      { outcome := .error (.other "unexpected error"), reqs := probe.2, saved := none }
    | none =>
      { outcome := .error (.other "unexpected error"), reqs := probe.2, saved := none }
  | _ => { outcome := .ok session, reqs := probe.2, saved := none }

/-! ## Concrete fixtures: a two-port device behind a small server model -/

def port1 : PortPoe :=
  { uri := "/ports/1/poe", port_id := "1", is_poe_enabled := true,
    poe_priority := "low", poe_allocation_method := "class",
    allocated_power_in_watts := 15, port_configured_type := "provision",
    pre_standard_detect_enabled := false }

def port2 : PortPoe :=
  { uri := "/ports/2/poe", port_id := "2", is_poe_enabled := false,
    poe_priority := "high", poe_allocation_method := "usage",
    allocated_power_in_watts := 30, port_configured_type := "provision",
    pre_standard_detect_enabled := true }

def device0 : List PortPoe := [port1, port2]

/-- The list-ports reply body for a device. -/
def wiredJson (ports : List PortPoe) : Json :=
  .obj [("collection_result", .obj []), ("port_poe", .arr (ports.map PortPoe.toJson))]

def sess0 : Session := { url := ⟨"http://h/rest/v1/"⟩, cookie := "abc123" }

def loginArgs0 : LoginArgs :=
  { base_url := "http://h", user_name := "admin", password := "hunter2" }

def pd0 : PersistentData := { login_args := loginArgs0, cookie := "abc123" }

/-- A healthy server: serves the two-port device, accepts writes on both
ports, answers login with cookie abc123, and 404s everything else. -/
def net0 : Net :=
  { get := fun u =>
      if u.raw == "http://h/rest/v1/poe/ports" then some ⟨200, wiredJson device0⟩
      else if u.raw == "http://h/rest/v1/ports/1/poe" then some ⟨200, port1.toJson⟩
      else if u.raw == "http://h/rest/v1/ports/2/poe" then some ⟨200, port2.toJson⟩
      else some ⟨404, .null⟩,
    put := fun u _ =>
      if u.raw == "http://h/rest/v1/ports/1/poe" then some ⟨200, port1.toJson⟩
      else if u.raw == "http://h/rest/v1/ports/2/poe" then some ⟨200, port2.toJson⟩
      else some ⟨404, .null⟩,
    post := fun u _ =>
      if u.raw == "http://h/rest/v1/login-sessions" then
        some ⟨200, .obj [("cookie", .str "abc123")]⟩
      else some ⟨404, .null⟩ }

/-- A patch containing only a field that is not marked writable. -/
def patch0 : Json := .obj [("allocated_power_in_watts", .num 5)]

/-- A server whose session has expired: every authenticated GET answers
400, but login still succeeds with cookie abc123. -/
def net400 : Net :=
  { get := fun _ => some ⟨400, .null⟩,
    put := fun _ _ => some ⟨404, .null⟩,
    post := fun u _ =>
      if u.raw == "http://h/rest/v1/login-sessions" then
        some ⟨200, .obj [("cookie", .str "abc123")]⟩
      else some ⟨404, .null⟩ }

/-! ## Helper lemmas -/

theorem httpGet_reqs {α : Type} (net : Net) (u : Url) (dec : Json → Option α) :
    (httpGet net u dec).2 = [Request.get u] := by
  unfold httpGet
  cases net.get u with
  | none => rfl
  | some r =>
    by_cases h : 400 ≤ r.status
    · simp [h]
    · simp only [if_neg h]
      cases dec r.body <;> rfl

theorem httpPut_reqs {α : Type} (net : Net) (u : Url) (body : Json) (dec : Json → Option α) :
    (httpPut net u body dec).2 = [Request.put u body] := by
  unfold httpPut
  cases net.put u body with
  | none => rfl
  | some r =>
    by_cases h : 400 ≤ r.status
    · simp [h]
    · simp only [if_neg h]
      cases dec r.body <;> rfl

theorem httpPost_reqs {α : Type} (net : Net) (u : Url) (body : Json) (dec : Json → Option α) :
    (httpPost net u body dec).2 = [Request.post u body] := by
  unfold httpPost
  cases net.post u body with
  | none => rfl
  | some r =>
    by_cases h : 400 ≤ r.status
    · simp [h]
    · simp only [if_neg h]
      cases dec r.body <;> rfl

theorem httpGet_no_parse {α : Type} (net : Net) (u : Url) (dec : Json → Option α) (m : String) :
    (httpGet net u dec).1 ≠ .error (.Parse m) := by
  unfold httpGet
  cases net.get u with
  | none => simp
  | some r =>
    by_cases h : 400 ≤ r.status
    · simp [h]
    · simp only [if_neg h]
      cases dec r.body <;> simp

theorem get_port_reqs (s : Session) (port_id : String) (net : Net) :
    (s.get_port port_id net).2 = [Request.get (s.url.join ("ports/" ++ port_id ++ "/poe"))] :=
  httpGet_reqs net _ PortPoe.fromJson?

theorem get_ports_reqs (s : Session) (net : Net) :
    (s.get_ports net).2 = [Request.get (s.url.join "poe/ports")] :=
  httpGet_reqs net _ decodeWiredElementList

theorem get_port_no_parse (s : Session) (port_id : String) (net : Net) (m : String) :
    (s.get_port port_id net).1 ≠ .error (.Parse m) :=
  httpGet_no_parse net _ PortPoe.fromJson? m

theorem collectResult_length {ε α : Type} (l : List (Except ε α))
    (h : ∀ x ∈ l, ∃ a, x = .ok a) :
    ∃ res, collectResult l = .ok res ∧ res.length = l.length := by
  induction l with
  | nil => exact ⟨[], rfl, rfl⟩
  | cons x rest ih =>
    obtain ⟨a, rfl⟩ := h x (List.mem_cons_self x rest)
    obtain ⟨res, hres, hlen⟩ := ih (fun y hy => h y (List.mem_cons_of_mem _ hy))
    exact ⟨a :: res, by simp [collectResult, hres, Except.map], by simp [hlen]⟩

theorem collectResult_error {ε α : Type} (l : List (Except ε α)) (e : ε)
    (h : Except.error e ∈ l) :
    ∃ e2, collectResult l = .error e2 := by
  induction l with
  | nil => cases h
  | cons x rest ih =>
    cases x with
    | error e1 => exact ⟨e1, rfl⟩
    | ok a =>
      have hmem : Except.error e ∈ rest := by
        rcases List.mem_cons.mp h with h1 | h1
        · exact absurd h1 (by simp)
        · exact h1
      obtain ⟨e2, he2⟩ := ih hmem
      exact ⟨e2, by simp [collectResult, he2, Except.map]⟩

theorem filterMap_join_map_ok (rs : List (Except Error PortPoe)) :
    (rs.map (Except.ok : Except Error PortPoe → TaskOutcome)).filterMap joinYield = rs := by
  induction rs with
  | nil => rfl
  | cons r rest ih => simp [joinYield, ih]

theorem collectSetResults_map_ok (rs : List (Except Error PortPoe)) :
    collectSetResults (rs.map Except.ok) = collectResult rs := by
  unfold collectSetResults
  rw [filterMap_join_map_ok]

theorem spawnLoop_parse_ok (session : Session) (net : Net) (data : String) (joinOk : Nat → Bool)
    (j : Json) (hp : parseJson data = some j) (hj : ∀ i, joinOk i = true) :
    ∀ idx ports, (spawnLoop session net data joinOk idx ports).1 =
      .ok (ports.map (fun port =>
        (Except.ok (session.set_port port j net).1 : TaskOutcome))) := by
  intro idx ports
  induction ports generalizing idx with
  | nil => rfl
  | cons port rest ih =>
    simp only [spawnLoop, hp, hj idx, if_true]
    rw [ih (idx + 1)]
    rfl

theorem spawnLoop_parse_fail (session : Session) (net : Net) (data : String)
    (joinOk : Nat → Bool) (idx : Nat) (port : PortPoe) (rest : List PortPoe)
    (hp : parseJson data = none) :
    spawnLoop session net data joinOk idx (port :: rest) = (.error .jsonParse, []) := by
  simp [spawnLoop, hp]

theorem selectPorts_reqs (args : SetArgs) (session : Session) (net : Net) :
    (SetArgs.selectPorts args session net).2 = (session.get_ports net).2 := by
  unfold SetArgs.selectPorts
  dsimp only
  split <;> rfl

theorem Session_new_parse_fail (url : String) (creds : LoginRequest) (net : Net)
    (hp : parseUrl url = none) :
    Session.new url creds net = (.error (.Parse "relative URL without a base"), []) := by
  unfold Session.new
  rw [hp]

theorem Session_new_trace_of_parse (url : String) (creds : LoginRequest) (net : Net)
    (u : Url) (hp : parseUrl url = some u) :
    (Session.new url creds net).2 =
      [Request.post ((u.join "rest/v1/").join "login-sessions") creds.toJson] := by
  unfold Session.new
  rw [hp]
  dsimp only
  rcases hr : (httpPost net ((u.join "rest/v1/").join "login-sessions")
      creds.toJson decodeLoginResponse).1 with e | cookie
  · exact httpPost_reqs net _ creds.toJson decodeLoginResponse
  · rcases hfc : Session.from_cookie url cookie with e2 | s2 <;>
      simp [hfc, httpPost_reqs]

theorem Session_new_reqs (url : String) (creds : LoginRequest) (net : Net) :
    (Session.new url creds net).2 = [] ∨
      ∃ u b, (Session.new url creds net).2 = [Request.post u b] := by
  rcases hp : parseUrl url with _ | u
  · left
    rw [Session_new_parse_fail url creds net hp]
  · right
    exact ⟨(u.join "rest/v1/").join "login-sessions", creds.toJson,
      Session_new_trace_of_parse url creds net u hp⟩

theorem Session_new_no_gets (url : String) (creds : LoginRequest) (net : Net) :
    ((Session.new url creds net).2.filter Request.isGet) = [] := by
  rcases Session_new_reqs url creds net with h | ⟨u, b, h⟩ <;>
    simp [h, Request.isGet]

theorem Session_new_posts_le_one (url : String) (creds : LoginRequest) (net : Net) :
    ((Session.new url creds net).2.filter Request.isPost).length ≤ 1 := by
  rcases Session_new_reqs url creds net with h | ⟨u, b, h⟩ <;>
    simp [h, Request.isPost]

theorem Session_new_posts_of_ok (url : String) (creds : LoginRequest) (net : Net)
    (s : Session) (ck : String)
    (h : (Session.new url creds net).1 = .ok (s, ck)) :
    ((Session.new url creds net).2.filter Request.isPost).length = 1 := by
  rcases hp : parseUrl url with _ | u
  · rw [Session_new_parse_fail url creds net hp] at h
    exact absurd h (by simp)
  · rw [Session_new_trace_of_parse url creds net u hp]
    simp [Request.isPost]

theorem selectPorts_all (args : SetArgs) (session : Session) (net : Net)
    (hall : (args.port_ids.length == 1 && args.port_ids.headD "" == "all") = true) :
    SetArgs.selectPorts args session net = session.get_ports net := by
  unfold SetArgs.selectPorts
  dsimp only
  rw [hall]
  rfl

theorem selectPorts_filter (args : SetArgs) (session : Session) (net : Net)
    (hall : (args.port_ids.length == 1 && args.port_ids.headD "" == "all") = false) :
    SetArgs.selectPorts args session net =
      ((session.get_ports net).1.map (fun ports =>
        ports.filter (fun port => args.port_ids.contains port.port_id)),
       (session.get_ports net).2) := by
  unfold SetArgs.selectPorts
  dsimp only
  rw [hall]
  rfl

theorem getHandle_all (args : GetArgs) (session : Session) (net : Net)
    (hall : (args.port_ids.length == 1 && args.port_ids.headD "" == "all") = true) :
    GetArgs.handle args session net = session.get_ports net := by
  unfold GetArgs.handle
  dsimp only
  rw [hall]
  rfl

theorem getHandle_single (id : String) (session : Session) (net : Net)
    (hid : (id == "all") = false) :
    GetArgs.handle { port_ids := [id] } session net =
      ((session.get_port id net).1.map (fun port => [port]),
       (session.get_port id net).2) := by
  have hall : ((([id] : List String).length == 1
      && ([id] : List String).headD "" == "all")) = false := by
    simpa using hid
  unfold GetArgs.handle
  dsimp only
  rw [hall]
  rfl

theorem getHandle_filter (args : GetArgs) (session : Session) (net : Net)
    (hlen : (args.port_ids.length == 1) = false) :
    GetArgs.handle args session net =
      ((session.get_ports net).1.map (fun ports =>
        ports.filter (fun port => args.port_ids.contains port.port_id)),
       (session.get_ports net).2) := by
  unfold GetArgs.handle
  dsimp only
  rw [hlen]
  rfl

/-! ## Claims -/

/-- C1: the claim says a failed join of a spawned write task is reported
as a coordination failure distinct from an API failure. The code instead
drops it: flat_map iterates each join Result, which yields nothing for
Err, so the "failed to join task" error built by map_err never reaches the
caller. Evaluating the code on a bulk set over the two-port device where
task 0 terminates abnormally and task 1 succeeds: two targets are
selected, yet the operation reports overall success with only port 2's
result. -/
theorem C1_join_failure_silently_dropped :
    (SetArgs.selectPorts { port_ids := ["all"], data := "1" } sess0 net0).1 =
        .ok [port1, port2]
    ∧ (SetArgs.handle { port_ids := ["all"], data := "1" } sess0 net0 (fun i => i == 1)).1 =
        .ok [port2] :=
  ⟨rfl, rfl⟩

/-- C2 counterexample: logging in with password hunter2 against a healthy
server persists a record whose serialized login_args carries the plaintext
password, refuting "never persisted in plaintext beyond the login
request". -/
theorem C2_counterexample_password_in_persisted_record :
    (LoginArgs.handle loginArgs0 net0).1 =
        .ok (sess0, { login_args := loginArgs0, cookie := "abc123" })
    ∧ ((PersistentData.save_to_disk loginArgs0 "abc123").getField "login_args").bind
        (fun j => j.getField "password") = some (.str "hunter2")
    ∧ loginArgs0.password = "hunter2" :=
  ⟨rfl, rfl, rfl⟩

/-- C6 counterexample: set_port transmits the caller-supplied patch
verbatim, so a write payload can contain allocated_power_in_watts, a field
absent from the writable-payload type PortPoeWrite. -/
theorem C6_counterexample_nonwritable_field_sent :
    (sess0.set_port port1 patch0 net0).2 =
        [Request.put (sess0.url.join "ports/1/poe") patch0]
    ∧ patch0.getField "allocated_power_in_watts" = some (.num 5)
    ∧ (PortPoeWrite.toJson (PortPoeWrite.fromPortPoe port1)).getField
        "allocated_power_in_watts" = none :=
  ⟨rfl, rfl, rfl⟩

/-- C9 counterexample: with an invalid patch payload and a single explicit
identifier matching no port, the set command succeeds (zero targets means
the payload is never parsed), refuting "the command fails ... regardless
of how many target ports were selected". -/
theorem C9_counterexample_invalid_json_succeeds :
    parseJson "x" = none
    ∧ (SetArgs.handle { port_ids := ["5"], data := "x" } sess0 net0 (fun _ => true)).1 =
        .ok []
    ∧ (SetArgs.handle { port_ids := ["5"], data := "x" } sess0 net0 (fun _ => true)).2.filter
        Request.isPut = [] :=
  ⟨rfl, rfl, rfl⟩

/-- C7: Session::from_cookie reconstructs a session purely from the base
URL string and the token (its type takes no network environment, so no
network call is possible, and no property of the token is inspected): for
every well-formed base URL it succeeds with the joined rest base URL and
the supplied cookie, and for a malformed base URL it fails with the
URL-parse configuration error. -/
theorem C7_restore_offline (url cookie : String) :
    (∀ u, parseUrl url = some u →
      Session.from_cookie url cookie = .ok { url := u.join "rest/v1/", cookie := cookie })
    ∧ (parseUrl url = none →
      ∃ m, Session.from_cookie url cookie = .error (.Parse m)) := by
  constructor
  · intro u hu
    unfold Session.from_cookie
    rw [hu]
  · intro hn
    unfold Session.from_cookie
    rw [hn]
    exact ⟨_, rfl⟩

/-- C7 witness: a well-formed base URL restores the expected session for
any token; a malformed one fails with a parse error. -/
theorem C7_restore_offline_witness :
    Session.from_cookie "http://h" "abc123" = .ok sess0
    ∧ ∃ m, Session.from_cookie "not a url" "abc123" = .error (.Parse m) :=
  ⟨(C7_restore_offline "http://h" "abc123").1 ⟨"http://h/"⟩ rfl,
   (C7_restore_offline "not a url" "abc123").2 rfl⟩

/-- C10: get with an empty identifier list takes the client-side filter
path with an empty requested set: whenever the list-ports call succeeds
the command succeeds with no ports selected and nothing printed, rather
than raising an error or behaving like "all". -/
theorem C10_get_empty_ids (session : Session) (net : Net) (ports : List PortPoe)
    (h : (session.get_ports net).1 = .ok ports) :
    (GetArgs.handle { port_ids := [] } session net).1 = .ok [] := by
  have hfil := getHandle_filter { port_ids := [] } session net (by rfl)
  rw [hfil]
  rw [h]
  simp [Except.map]

/-- C10 witness: get with no identifiers on the two-port device prints
nothing. -/
theorem C10_get_empty_ids_witness :
    (GetArgs.handle { port_ids := [] } sess0 net0).1 = .ok [] :=
  C10_get_empty_ids sess0 net0 device0 rfl

/-- C8: a set with one explicit identifier that is not the sentinel and
matches no port takes the filter path (set has no single-port lookup
path), selects no targets, spawns no task, issues no write request, and
succeeds printing nothing, whatever the patch string. -/
theorem C8_set_unknown_single_id_is_noop (id data : String) (session : Session) (net : Net)
    (joinOk : Nat → Bool) (ports : List PortPoe)
    (hid : id ≠ "all")
    (hports : (session.get_ports net).1 = .ok ports)
    (hnone : ∀ p ∈ ports, p.port_id ≠ id) :
    (SetArgs.handle { port_ids := [id], data := data } session net joinOk).1 = .ok []
    ∧ ((SetArgs.handle { port_ids := [id], data := data } session net joinOk).2.filter
        Request.isPut) = [] := by
  have hall : ((([id] : List String).length == 1
      && ([id] : List String).headD "" == "all")) = false := by
    simpa using (beq_eq_false_iff_ne.mpr hid)
  have hfilter : ports.filter (fun port => ([id] : List String).contains port.port_id) = [] := by
    rw [List.filter_eq_nil_iff]
    intro p hp
    simp [hnone p hp]
  have hsel := selectPorts_filter { port_ids := [id], data := data } session net hall
  rw [hports] at hsel
  simp only [Except.map, hfilter] at hsel
  constructor
  · unfold SetArgs.handle
    rw [hsel]
    rfl
  · unfold SetArgs.handle
    rw [hsel]
    dsimp only [spawnLoop, collectSetResults, List.filterMap, collectResult]
    rw [get_ports_reqs]
    simp [Request.isPut]

/-- C8 witness: setting unknown port 5 with an arbitrary payload on the
two-port device succeeds, prints nothing and issues no write. -/
theorem C8_set_unknown_single_id_is_noop_witness :
    (SetArgs.handle { port_ids := ["5"], data := "1" } sess0 net0 (fun _ => true)).1 = .ok []
    ∧ ((SetArgs.handle { port_ids := ["5"], data := "1" } sess0 net0 (fun _ => true)).2.filter
        Request.isPut) = [] :=
  C8_set_unknown_single_id_is_noop "5" "1" sess0 net0 (fun _ => true) device0
    (by decide) rfl (by decide)

/-- C5: the selection policy. Part 1: the single sentinel "all" makes get
and the set selection operate on exactly the list-ports result. Part 2: a
multi-identifier request fetches all ports once and filters client-side;
unknown identifiers are silently dropped, no error is raised for them.
Part 3: a single explicit identifier in a get goes through the single-port
fetch, so a not-found error from it surfaces. -/
theorem C5_selection_policy :
    (∀ (session : Session) (net : Net) (data : String),
      GetArgs.handle { port_ids := ["all"] } session net = session.get_ports net
      ∧ SetArgs.selectPorts { port_ids := ["all"], data := data } session net
          = session.get_ports net)
    ∧ (∀ (ids : List String) (session : Session) (net : Net) (ports : List PortPoe)
        (data : String), 2 ≤ ids.length → (session.get_ports net).1 = .ok ports →
      (GetArgs.handle { port_ids := ids } session net).1
          = .ok (ports.filter (fun port => ids.contains port.port_id))
      ∧ (SetArgs.selectPorts { port_ids := ids, data := data } session net).1
          = .ok (ports.filter (fun port => ids.contains port.port_id)))
    ∧ (∀ (id : String) (session : Session) (net : Net), id ≠ "all" →
      GetArgs.handle { port_ids := [id] } session net
          = ((session.get_port id net).1.map (fun port => [port]),
             (session.get_port id net).2)
      ∧ ∀ e, (session.get_port id net).1 = .error e →
          (GetArgs.handle { port_ids := [id] } session net).1 = .error e) := by
  refine ⟨fun session net data => ⟨?_, ?_⟩, fun ids session net ports data h2 hget => ?_,
    fun id session net hid => ?_⟩
  · exact getHandle_all { port_ids := ["all"] } session net rfl
  · exact selectPorts_all { port_ids := ["all"], data := data } session net rfl
  · have hlen : (ids.length == 1) = false := by
      rw [beq_eq_false_iff_ne]
      omega
    have hall : (ids.length == 1 && ids.headD "" == "all") = false := by
      rw [hlen]
      rfl
    constructor
    · rw [getHandle_filter { port_ids := ids } session net hlen]
      dsimp only
      rw [hget]
      rfl
    · rw [selectPorts_filter { port_ids := ids, data := data } session net hall]
      dsimp only
      rw [hget]
      rfl
  · have hid2 : (id == "all") = false := beq_eq_false_iff_ne.mpr hid
    have hs := getHandle_single id session net hid2
    refine ⟨hs, fun e he => ?_⟩
    rw [hs]
    dsimp only
    rw [he]
    rfl

/-- C5 witness: on the two-port device, requesting identifiers 2 and 5
selects exactly port 2 and raises no error for the unknown identifier 5;
the sentinel request selects both ports. -/
theorem C5_selection_policy_witness :
    (GetArgs.handle { port_ids := ["2", "5"] } sess0 net0).1 = .ok [port2]
    ∧ (GetArgs.handle { port_ids := ["all"] } sess0 net0).1 = .ok [port1, port2] := by
  constructor
  · have h := (C5_selection_policy.2.1 ["2", "5"] sess0 net0 device0 "1"
      (by decide) rfl).1
    exact h.trans rfl
  · have h := (C5_selection_policy.1 sess0 net0 "1").1
    rw [h]
    rfl

/-- C3: all-or-nothing visibility of the bulk set. With targets selected,
a parsed payload and every task joining normally: if every per-port write
succeeds the caller gets exactly one result per target, and if any write
returns an API error the whole operation fails and no per-port result is
returned. -/
theorem C3_bulk_all_or_nothing (args : SetArgs) (session : Session) (net : Net)
    (ports : List PortPoe) (j : Json)
    (hsel : (SetArgs.selectPorts args session net).1 = .ok ports)
    (hp : parseJson args.data = some j) :
    ((∀ p ∈ ports, ∃ q, (session.set_port p j net).1 = .ok q) →
      ∃ res, (SetArgs.handle args session net (fun _ => true)).1 = .ok res
        ∧ res.length = ports.length)
    ∧ (∀ p ∈ ports, ∀ e, (session.set_port p j net).1 = .error e →
      ∃ e2, (SetArgs.handle args session net (fun _ => true)).1
        = .error (.api e2)) := by
  have hsp := spawnLoop_parse_ok session net args.data (fun _ => true) j hp
    (fun _ => rfl) 0 ports
  have hrw : collectSetResults (ports.map fun port =>
      (Except.ok (session.set_port port j net).1 : TaskOutcome))
      = collectResult (ports.map fun port => (session.set_port port j net).1) := by
    rw [← collectSetResults_map_ok, List.map_map]
    rfl
  unfold SetArgs.handle
  dsimp only
  rw [hsel]
  dsimp only
  rw [hsp]
  dsimp only
  rw [hrw]
  constructor
  · intro hok
    have hall : ∀ x ∈ ports.map (fun port => (session.set_port port j net).1),
        ∃ a, x = .ok a := by
      intro x hx
      obtain ⟨p, hp2, rfl⟩ := List.mem_map.mp hx
      exact hok p hp2
    obtain ⟨res, hres, hlen⟩ := collectResult_length _ hall
    rw [hres]
    exact ⟨res, rfl, by rw [hlen, List.length_map]⟩
  · intro p hp2 e he
    have hmem : Except.error e ∈ ports.map (fun port => (session.set_port port j net).1) :=
      List.mem_map.mpr ⟨p, hp2, he⟩
    obtain ⟨e2, he2⟩ := collectResult_error _ e hmem
    rw [he2]
    exact ⟨e2, rfl⟩

/-- C3 witness: a bulk set over both ports of the device, all writes
succeeding, yields exactly two results. -/
theorem C3_bulk_all_or_nothing_witness :
    ∃ res, (SetArgs.handle { port_ids := ["all"], data := "1" } sess0 net0 (fun _ => true)).1
        = .ok res ∧ res.length = 2 := by
  have h := (C3_bulk_all_or_nothing { port_ids := ["all"], data := "1" } sess0 net0 device0
      (Json.num 1) rfl rfl).1 (by
        intro p hp
        rcases List.mem_cons.mp hp with rfl | hp2
        · exact ⟨port1, rfl⟩
        · rcases List.mem_cons.mp hp2 with rfl | hp3
          · exact ⟨port2, rfl⟩
          · cases hp3)
  exact h

/-- C2 amended: the caller-supplied password IS persisted in plaintext:
both the login path and the re-authentication path save a record whose
serialized login_args carries the password verbatim (the program needs it
on disk in order to re-authenticate later). -/
theorem C2_amended_password_persisted :
    (∀ (args : LoginArgs) (net : Net) (s : Session) (d : PersistentData),
      (LoginArgs.handle args net).1 = .ok (s, d) →
        d.login_args.password = args.password
        ∧ (d.toJson.getField "login_args").bind (fun lj => lj.getField "password")
            = some (.str args.password))
    ∧ (∀ (session : Session) (persisted : PersistentData) (net : Net) (d : PersistentData),
      (validateSession session persisted net).saved = some d →
        d.login_args.password = persisted.login_args.password
        ∧ (d.toJson.getField "login_args").bind (fun lj => lj.getField "password")
            = some (.str persisted.login_args.password)) := by
  constructor
  · intro args net s d h
    unfold LoginArgs.handle at h
    dsimp only at h
    rcases hn : (Session.new args.base_url
        { user_name := args.user_name, password := args.password } net).1 with e | p
    · rw [hn] at h
      cases h
    · rw [hn] at h
      obtain ⟨s2, ck⟩ := p
      dsimp only at h
      injection h with h2
      injection h2 with h3 h4
      subst h4
      exact ⟨rfl, rfl⟩
  · intro session persisted net d h
    unfold validateSession at h
    dsimp only at h
    split at h
    · split at h
      · split at h
        · cases h
        · injection h with h2
          subst h2
          exact ⟨rfl, rfl⟩
      · cases h
      · cases h
    · cases h

/-- C2 amended witness: the record saved by a successful login against the
healthy server serializes the plaintext password hunter2. -/
theorem C2_amended_password_persisted_witness :
    ((PersistentData.mk loginArgs0 "abc123").toJson.getField "login_args").bind
        (fun lj => lj.getField "password") = some (.str "hunter2") :=
  (C2_amended_password_persisted.1 loginArgs0 net0 sess0
    { login_args := loginArgs0, cookie := "abc123" } rfl).2

/-- C6 amended: a Port Descriptor round-trips field-for-field through the
wire format, and the writable-payload type serializes exactly the single
writable field is_poe_enabled; but the payload actually serialized for a
write is the caller-supplied patch, transmitted verbatim by set_port, so
the write body is not restricted to writable fields. -/
theorem C6_roundtrip_and_write_payload :
    (∀ p : PortPoe, PortPoe.fromJson? (PortPoe.toJson p) = some p)
    ∧ (∀ w : PortPoeWrite, PortPoeWrite.toJson w
        = .obj [("is_poe_enabled", .bool w.is_poe_enabled)])
    ∧ (∀ (s : Session) (port : PortPoe) (data : Json) (net : Net),
        (s.set_port port data net).2
          = [Request.put (s.url.join ("ports/" ++ port.port_id ++ "/poe")) data]) :=
  ⟨fun _ => rfl, fun _ => rfl,
   fun _ _ data net => httpPut_reqs net _ data PortPoe.fromJson?⟩

/-- C9 amended: when the patch payload is not valid JSON, the set command
fails with the parse error before any task is spawned whenever at least
one target port was selected; with zero selected targets the payload is
never parsed and the command succeeds; in either case no write request is
issued. -/
theorem C9_invalid_json_no_write (args : SetArgs) (session : Session) (net : Net)
    (joinOk : Nat → Bool) (ports : List PortPoe)
    (hp : parseJson args.data = none)
    (hsel : (SetArgs.selectPorts args session net).1 = .ok ports) :
    (ports ≠ [] → (SetArgs.handle args session net joinOk).1 = .error .jsonParse)
    ∧ (ports = [] → (SetArgs.handle args session net joinOk).1 = .ok [])
    ∧ ((SetArgs.handle args session net joinOk).2.filter Request.isPut = []) := by
  have hreqs : (SetArgs.selectPorts args session net).2.filter Request.isPut = [] := by
    rw [selectPorts_reqs, get_ports_reqs]
    rfl
  unfold SetArgs.handle
  dsimp only
  rw [hsel]
  dsimp only
  cases ports with
  | nil =>
    refine ⟨fun hne => absurd rfl hne, fun _ => rfl, ?_⟩
    dsimp only [spawnLoop, collectSetResults, List.filterMap, collectResult]
    rw [List.append_nil]
    exact hreqs
  | cons port rest =>
    rw [spawnLoop_parse_fail session net args.data joinOk 0 port rest hp]
    refine ⟨fun _ => rfl, fun he => absurd he (by simp), ?_⟩
    rw [List.append_nil]
    exact hreqs

/-- C9 amended witness: an invalid payload against the one matching port 1
fails with the parse error and issues no write. -/
theorem C9_invalid_json_no_write_witness :
    (SetArgs.handle { port_ids := ["1"], data := "x" } sess0 net0 (fun _ => true)).1
        = .error .jsonParse
    ∧ ((SetArgs.handle { port_ids := ["1"], data := "x" } sess0 net0 (fun _ => true)).2.filter
        Request.isPut = []) := by
  have h := C9_invalid_json_no_write { port_ids := ["1"], data := "x" } sess0 net0
    (fun _ => true) [port1] rfl rfl
  exact ⟨h.1 (by simp), h.2.2⟩

/-- C4: the session-validation step issues exactly one probe GET and then
branches on its outcome: a successful probe keeps the original session
with nothing saved; a reqwest error carrying status 400 triggers exactly
one re-authentication, and when that authentication succeeds the new
session is returned and the new token is persisted together with the
stored login arguments; a reqwest error with any other (or no) status is
fatal with nothing saved; the probe can never yield a URL-parse error, so
these cases are exhaustive. In every execution at most one authentication
request is posted. -/
theorem C4_session_validation (session : Session) (persisted : PersistentData) (net : Net) :
    (((validateSession session persisted net).reqs.filter Request.isPost).length ≤ 1)
    ∧ (((validateSession session persisted net).reqs.filter Request.isGet).length = 1)
    ∧ (∀ m, (session.get_port "1" net).1 ≠ .error (.Parse m))
    ∧ (∀ p, (session.get_port "1" net).1 = .ok p →
        (validateSession session persisted net).outcome = .ok session
        ∧ (validateSession session persisted net).saved = none)
    ∧ (∀ e, (session.get_port "1" net).1 = .error (.Request e) → e.status ≠ some 400 →
        (∃ m, (validateSession session persisted net).outcome = .error (.other m))
        ∧ (validateSession session persisted net).saved = none)
    ∧ (∀ e, (session.get_port "1" net).1 = .error (.Request e) → e.status = some 400 →
        ∀ ns ck,
          (Session.new persisted.login_args.base_url
            { user_name := persisted.login_args.user_name,
              password := persisted.login_args.password } net).1 = .ok (ns, ck) →
          (validateSession session persisted net).outcome = .ok ns
          ∧ (validateSession session persisted net).saved
              = some { login_args := persisted.login_args, cookie := ck }
          ∧ ((validateSession session persisted net).reqs.filter Request.isPost).length
              = 1) := by
  refine ⟨?_, ?_, get_port_no_parse session "1" net, ?_, ?_, ?_⟩
  · unfold validateSession
    dsimp only
    split
    · split
      · split <;>
          simp [get_port_reqs, List.filter_append, Request.isPost,
            Session_new_posts_le_one]
      · simp [get_port_reqs, Request.isPost]
      · simp [get_port_reqs, Request.isPost]
    · simp [get_port_reqs, Request.isPost]
  · unfold validateSession
    dsimp only
    split
    · split
      · split <;>
          simp [get_port_reqs, List.filter_append, Request.isGet, Session_new_no_gets]
      · simp [get_port_reqs, Request.isGet]
      · simp [get_port_reqs, Request.isGet]
    · simp [get_port_reqs, Request.isGet]
  · intro p hpr
    unfold validateSession
    dsimp only
    rw [hpr]
    exact ⟨rfl, rfl⟩
  · intro e hpr hne
    unfold validateSession
    dsimp only
    rw [hpr]
    dsimp only
    rcases hst : e.status with _ | n
    · exact ⟨⟨"unexpected error", rfl⟩, rfl⟩
    · have hn : n ≠ 400 := by
        intro h
        exact hne (by rw [hst, h])
      split
      · rename_i heq
        exact absurd (Option.some.inj heq) hn
      · exact ⟨⟨"unexpected error", rfl⟩, rfl⟩
      · rename_i heq
        cases heq
  · intro e hpr h400 ns ck hnew
    unfold validateSession
    dsimp only
    rw [hpr]
    dsimp only
    rw [h400]
    dsimp only
    rw [hnew]
    refine ⟨rfl, rfl, ?_⟩
    rw [get_port_reqs]
    simp [List.filter_append, Request.isPost]
    exact Session_new_posts_of_ok _ _ _ _ _ hnew

/-- C4 witness: against the expired-session server the probe answers 400,
validation re-authenticates exactly once, persists the new token with the
stored login arguments, and hands back the freshly created session. -/
theorem C4_session_validation_witness :
    (validateSession sess0 pd0 net400).outcome = .ok sess0
    ∧ (validateSession sess0 pd0 net400).saved
        = some { login_args := loginArgs0, cookie := "abc123" }
    ∧ ((validateSession sess0 pd0 net400).reqs.filter Request.isPost).length = 1 :=
  (C4_session_validation sess0 pd0 net400).2.2.2.2.2 ⟨some 400⟩ rfl rfl sess0 "abc123" rfl

end Arc
